import Mathlib

/-!
Verification development for the serverless backend adapter layer
(`backend/lambda_handler.py`): a shallow embedding of the event
classification (`detect_event_type`), the event normalization
(`create_api_gateway_v2_event` and the inline API-Gateway-v1 conversion),
the health shortcut (`health_check`), the metric emission, the top-level
error policy of `lambda_handler`, and the environment bootstrapper
(`setup_lambda_environment`).

Values flowing through the handler are JSON-like Python objects, modelled
by the inductive type `Json`.  Python operations that can raise
(`event[k]`, `k in event`, `.get`, comparisons, `str.split`) are modelled
as `Except PyErr` computations with the corresponding CPython semantics:
`in` on a mapping tests key membership, on a string tests substring
containment, on a list tests element membership, and raises `TypeError`
otherwise; `[k]` raises `KeyError` on a missing mapping key and
`TypeError` on non-mapping values; `.get` raises `AttributeError` on
non-mapping values.

Wall-clock readings, metric values and metric timestamps are abstracted
by a `Clock` parameter (they never influence control flow); process state
(directories, writability, environment variables) is a `SysState`.
-/

set_option autoImplicit false

namespace Sen

/-- JSON-like Python value: the payloads the Lambda handler manipulates.
Numbers are modelled as integers (no claim depends on float payloads);
mappings are insertion-ordered key/value lists, as CPython dicts are. -/
inductive Json where
  | null
  | bool (b : Bool)
  | num (n : Int)
  | str (s : String)
  | arr (xs : List Json)
  | obj (kvs : List (String × Json))
deriving Inhabited

mutual
/-- Structural equality on `Json`, the behaviour of Python `==` on the
value shapes the handler compares (comparisons against strings). -/
def jsonBeq : Json → Json → Bool
  | .null, .null => true
  | .bool a, .bool b => a == b
  | .num a, .num b => a == b
  | .str a, .str b => a == b
  | .arr a, .arr b => jsonBeqArr a b
  | .obj a, .obj b => jsonBeqObj a b
  | _, _ => false

/-- Pointwise structural equality of JSON arrays. -/
def jsonBeqArr : List Json → List Json → Bool
  | [], [] => true
  | a :: as, b :: bs => jsonBeq a b && jsonBeqArr as bs
  | _, _ => false

/-- Pointwise structural equality of JSON objects (order-sensitive, which
is all the handler ever relies on). -/
def jsonBeqObj : List (String × Json) → List (String × Json) → Bool
  | [], [] => true
  | (ka, va) :: as, (kb, vb) :: bs => ka == kb && jsonBeq va vb && jsonBeqObj as bs
  | _, _ => false
end

instance : BEq Json := ⟨jsonBeq⟩

/-- Python exception, as far as the handler distinguishes them: the
constructor determines `type(e).__name__` and the payload `str(e)`.
`exn` covers exceptions raised by the wrapped application. -/
inductive PyErr where
  | keyError (k : String)
  | typeError (m : String)
  | attrError (m : String)
  | exn (ty m : String)
deriving DecidableEq, Inhabited

/-- Single-quote character, used by Python `repr`/`str(KeyError)`. -/
def sq : String := String.mk [Char.ofNat 39]

/-- Name of the exception type, as `type(e).__name__` yields it. -/
def PyErr.typeName : PyErr → String
  | .keyError _ => "KeyError"
  | .typeError _ => "TypeError"
  | .attrError _ => "AttributeError"
  | .exn ty _ => ty

/-- Message of the exception, as `str(e)` yields it (for `KeyError` CPython
prints the repr of the missing key, i.e. the key in single quotes). -/
def PyErr.msg : PyErr → String
  | .keyError k => sq ++ k ++ sq
  | .typeError m => m
  | .attrError m => m
  | .exn _ m => m

/-- Boolean test that `pat` occurs as a contiguous run at the head of `l`. -/
def chHead : List Char → List Char → Bool
  | [], _ => true
  | _ :: _, [] => false
  | a :: as, b :: bs => a == b && chHead as bs

/-- Boolean test that `pat` occurs as a contiguous run anywhere in `l`. -/
def chInf (pat : List Char) : List Char → Bool
  | [] => chHead pat []
  | b :: bs => chHead pat (b :: bs) || chInf pat bs

/-- Python substring containment `pat in s`. -/
def strContains (s pat : String) : Bool :=
  chInf pat.data s.data

/-- Python membership test `k in v` (string key against an arbitrary
value): key membership on dicts, substring on strings, element membership
on lists, `TypeError` otherwise. -/
def pyIn (k : String) : Json → Except PyErr Bool
  | .obj kvs => .ok (kvs.lookup k).isSome
  | .str s => .ok (strContains s k)
  | .arr xs => .ok (xs.contains (.str k))
  | _ => .error (.typeError "argument of type is not iterable")

/-- Python subscript `v[k]` with a string key: mapping lookup raising
`KeyError` when absent, `TypeError` on non-mapping values. -/
def pyGetItem (v : Json) (k : String) : Except PyErr Json :=
  match v with
  | .obj kvs =>
    match kvs.lookup k with
    | some x => .ok x
    | none => .error (.keyError k)
  | _ => .error (.typeError "object is not subscriptable with str")

/-- Python `v.get(k, d)`: defaulted mapping lookup, `AttributeError` on
non-mapping values (which lack the `get` attribute). -/
def pyGet (v : Json) (k : String) (d : Json) : Except PyErr Json :=
  match v with
  | .obj kvs => .ok ((kvs.lookup k).getD d)
  | _ => .error (.attrError "object has no attribute get")

/-- Four-digit lowercase hex rendering used by the `\u00XX` escapes of
`json.dumps` (with its default `ensure_ascii=True`). -/
def hex4 (n : Nat) : String :=
  let dig := fun (d : Nat) =>
    if d < 10 then Char.ofNat (48 + d) else Char.ofNat (87 + d)
  String.mk [dig (n / 4096 % 16), dig (n / 256 % 16), dig (n / 16 % 16), dig (n % 16)]

/-- Escape of one character inside a `json.dumps` string literal. -/
def jsonEscapeChar (c : Char) : String :=
  if c = Char.ofNat 34 then String.mk [Char.ofNat 92, Char.ofNat 34]
  else if c = Char.ofNat 92 then String.mk [Char.ofNat 92, Char.ofNat 92]
  else if c = Char.ofNat 10 then String.mk [Char.ofNat 92] ++ "n"
  else if c = Char.ofNat 13 then String.mk [Char.ofNat 92] ++ "r"
  else if c = Char.ofNat 9 then String.mk [Char.ofNat 92] ++ "t"
  else if c.toNat < 32 || c.toNat > 126 then String.mk [Char.ofNat 92] ++ "u" ++ hex4 c.toNat
  else String.mk [c]

/-- Double-quoted, escaped JSON string literal, per `json.dumps`. -/
def dq (s : String) : String :=
  String.mk [Char.ofNat 34] ++ String.join (s.data.map jsonEscapeChar) ++ String.mk [Char.ofNat 34]

mutual
/-- Serialization `json.dumps(v)` with CPython's default separators. -/
def dumps : Json → String
  | .null => "null"
  | .bool true => "true"
  | .bool false => "false"
  | .num n => toString n
  | .str s => dq s
  | .arr xs => "[" ++ dumpsArr xs ++ "]"
  | .obj kvs => "\x7b" ++ dumpsObj kvs ++ "\x7d"

/-- Comma-separated serialization of array elements. -/
def dumpsArr : List Json → String
  | [] => ""
  | [x] => dumps x
  | x :: y :: xs => dumps x ++ ", " ++ dumpsArr (y :: xs)

/-- Comma-separated serialization of object entries. -/
def dumpsObj : List (String × Json) → String
  | [] => ""
  | [(k, v)] => dq k ++ ": " ++ dumps v
  | (k, v) :: e :: kvs => dq k ++ ": " ++ dumps v ++ ", " ++ dumpsObj (e :: kvs)
end

mutual
/-- Python `repr(v)` for the JSON fragment (string-escape subtleties of
`repr` abstracted: strings are rendered in plain single quotes).  Only
reachable through f-string interpolation of non-string values, which no
claim exercises on composite payloads. -/
def pyRepr : Json → String
  | .null => "None"
  | .bool true => "True"
  | .bool false => "False"
  | .num n => toString n
  | .str s => sq ++ s ++ sq
  | .arr xs => "[" ++ pyReprArr xs ++ "]"
  | .obj kvs => "\x7b" ++ pyReprObj kvs ++ "\x7d"

/-- Comma-separated `repr` of list elements. -/
def pyReprArr : List Json → String
  | [] => ""
  | [x] => pyRepr x
  | x :: y :: xs => pyRepr x ++ ", " ++ pyReprArr (y :: xs)

/-- Comma-separated `repr` of dict entries. -/
def pyReprObj : List (String × Json) → String
  | [] => ""
  | [(k, v)] => sq ++ k ++ sq ++ ": " ++ pyRepr v
  | (k, v) :: e :: kvs => sq ++ k ++ sq ++ ": " ++ pyRepr v ++ ", " ++ pyReprObj (e :: kvs)
end

/-- Python `str(v)`, as used by f-string interpolation and dimension
stringification: identity on strings, `repr`-like elsewhere. -/
def pyStr : Json → String
  | .str s => s
  | v => pyRepr v

/-- Wall-clock abstraction: `ms` stands for `int(time.time() * 1000)` at
the moment the handler reads the clock, `fmt` for the `time.strftime`
rendering of the same instant.  Clock readings never steer control flow. -/
structure Clock where
  ms : Int
  fmt : String

/-- Lambda invocation context: the request id, plus the two optional
attributes the handler probes with `hasattr` for telemetry. -/
structure Ctx where
  awsRequestId : String
  memoryLimitMb : Option Int
  remainingMs : Option Int

/-- Process-wide state: which directories exist, which are writable, and
the process environment (`os.environ`), each as a point query. -/
structure SysState where
  dirs : String → Bool
  writable : String → Bool
  env : String → Option String

/-- Sample sent through `send_cloudwatch_metric`: metric name, unit and
dimensions.  Values and timestamps are clock readings, abstracted away;
the sink is best-effort fire-and-forget, so emission is modelled as
appending the sample to the invocation's emission list. -/
structure Metric where
  name : String
  unit : String
  dims : List (String × String)
deriving DecidableEq

/-- Environment lookup with default, `os.getenv(k, d)`. -/
def envGetD (sys : SysState) (k d : String) : String :=
  (sys.env k).getD d

/-- Truthiness of `os.getenv(DEBUG)`: set and non-empty. -/
def debugOf (sys : SysState) : Bool :=
  match sys.env "DEBUG" with
  | some s => !(s == "")
  | none => false

/-- Event classifier `detect_event_type`, translated clause for clause:
API Gateway v2 on `version == "2.0"`, API Gateway v1 on top-level
`requestContext` and `httpMethod`, ALB on `requestContext` containing
`elb`, Function URL on `requestContext` containing `http`, else direct
invocation.  The membership probes carry Python `in` semantics, so the
computation can raise when `requestContext` holds a non-iterable value. -/
def detect_event_type (event : Json) : Except PyErr String := do
  if (← pyIn "version" event) then
    let v ← pyGetItem event "version"
    if v == Json.str "2.0" then
      return "api_gateway_v2"
  if (← pyIn "requestContext" event) then
    if (← pyIn "httpMethod" event) then
      return "api_gateway_v1"
  if (← pyIn "requestContext" event) then
    let rc ← pyGetItem event "requestContext"
    if (← pyIn "elb" rc) then
      return "alb"
  if (← pyIn "requestContext" event) then
    let rc ← pyGetItem event "requestContext"
    if (← pyIn "http" rc) then
      return "lambda_function_url"
  return "direct_invocation"

/-- Conversion of a direct-invocation (or test) event into API Gateway v2
format, `create_api_gateway_v2_event`: path defaults to
`/api/process-audio`, method to `httpMethod`, then `method`, then `POST`;
a dict body is serialized, a string body kept, anything else replaced by
the serialization of the whole event; the synthesized `requestContext`
carries fixed placeholder identity values and a clock-derived request id. -/
def create_api_gateway_v2_event (clock : Clock) (event : Json) : Except PyErr Json := do
  let path ← pyGet event "path" (.str "/api/process-audio")
  let methodDefault ← pyGet event "method" (.str "POST")
  let method ← pyGet event "httpMethod" methodDefault
  let hasBody ← pyIn "body" event
  let body ←
    if hasBody then do
      let b ← pyGetItem event "body"
      match b with
      | .obj _ => pure (Json.str (dumps b))
      | .str s => pure (Json.str s)
      | _ => pure (Json.str (dumps event))
    else
      pure (Json.str (dumps event))
  let qs ← pyGet event "queryStringParameters" (.str "")
  let cookies ← pyGet event "cookies" (.arr [])
  let headers ← pyGet event "headers"
    (.obj [("content-type", .str "application/json"), ("accept", .str "application/json")])
  let qsp ← pyGet event "queryStringParameters" (.obj [])
  let pparams ← pyGet event "pathParameters" (.obj [])
  let b64 ← pyGet event "isBase64Encoded" (.bool false)
  let sv ← pyGet event "stageVariables" (.obj [])
  pure (Json.obj [
    ("version", .str "2.0"),
    ("routeKey", .str (pyStr method ++ " " ++ pyStr path)),
    ("rawPath", path),
    ("rawQueryString", qs),
    ("cookies", cookies),
    ("headers", headers),
    ("queryStringParameters", qsp),
    ("requestContext", .obj [
      ("accountId", .str "123456789012"),
      ("apiId", .str "test-api"),
      ("domainName", .str "test.execute-api.us-east-1.amazonaws.com"),
      ("domainPrefix", .str "test"),
      ("http", .obj [
        ("method", method),
        ("path", path),
        ("protocol", .str "HTTP/1.1"),
        ("sourceIp", .str "127.0.0.1"),
        ("userAgent", .str "aws-lambda-python/3.11")]),
      ("requestId", .str ("test-" ++ toString (clock.ms / 1000) ++ "-" ++ toString (clock.ms % 1000))),
      ("routeKey", .str (pyStr method ++ " " ++ pyStr path)),
      ("stage", .str "$default"),
      ("time", .str clock.fmt),
      ("timeEpoch", .num clock.ms)]),
    ("body", body),
    ("pathParameters", pparams),
    ("isBase64Encoded", b64),
    ("stageVariables", sv)])

/-- Inline API Gateway v1 to v2 conversion performed by `lambda_handler`:
`httpMethod` and `path` are mandatory subscript accesses (so a missing
`path` raises `KeyError`), everything else is `.get` with the defaults of
the source; missing timestamps are back-filled from the clock. -/
def convert_v1_event (clock : Clock) (event : Json) : Except PyErr Json := do
  let method ← pyGetItem event "httpMethod"
  let path ← pyGetItem event "path"
  let qs ← pyGet event "queryStringParameters" (.str "")
  let headers ← pyGet event "headers" (.obj [])
  let qsp ← pyGet event "queryStringParameters" (.obj [])
  let rc ← pyGetItem event "requestContext"
  let ident ← pyGet rc "identity" (.obj [])
  let sip ← pyGet ident "sourceIp" (.str "127.0.0.1")
  let ident2 ← pyGet rc "identity" (.obj [])
  let ua ← pyGet ident2 "userAgent" (.str "unknown")
  let rid ← pyGet rc "requestId" (.str "unknown")
  let stage ← pyGet rc "stage" (.str "$default")
  let tm ← pyGet rc "requestTime" (.str clock.fmt)
  let te ← pyGet rc "requestTimeEpoch" (.num clock.ms)
  let body ← pyGet event "body" (.str "")
  let pparams ← pyGet event "pathParameters" (.obj [])
  let b64 ← pyGet event "isBase64Encoded" (.bool false)
  pure (Json.obj [
    ("version", .str "2.0"),
    ("routeKey", .str (pyStr method ++ " " ++ pyStr path)),
    ("rawPath", path),
    ("rawQueryString", qs),
    ("headers", headers),
    ("queryStringParameters", qsp),
    ("requestContext", .obj [
      ("http", .obj [
        ("method", method),
        ("path", path),
        ("protocol", .str "HTTP/1.1"),
        ("sourceIp", sip),
        ("userAgent", ua)]),
      ("requestId", rid),
      ("stage", stage),
      ("time", tm),
      ("timeEpoch", te)]),
    ("body", body),
    ("pathParameters", pparams),
    ("isBase64Encoded", b64)])

/-- Normalization branch of `lambda_handler` (lines 238 to 269 of the
source): direct invocations are rebuilt as API Gateway v2 events, v1
events converted, and every other kind is used as-is. -/
def normalizeEvent (clock : Clock) (kind : String) (event : Json) : Except PyErr Json :=
  if kind == "direct_invocation" then create_api_gateway_v2_event clock event
  else if kind == "api_gateway_v1" then convert_v1_event clock event
  else pure event

/-- Extraction of method and path from the processed event (lines 272 to
277): from `requestContext.http` when present, otherwise from top-level
`httpMethod`/`path` with defaults.  The error carries the method when it
was already assigned before the failure, mirroring which locals exist. -/
def extractMP (pe : Json) : Except (PyErr × Option Json) (Json × Json) :=
  let fallback : Except (PyErr × Option Json) (Json × Json) :=
    match pyGet pe "httpMethod" (.str "POST") with
    | .error e => .error (e, none)
    | .ok m =>
      match pyGet pe "path" (.str "/api/process-audio") with
      | .error e => .error (e, some m)
      | .ok p => .ok (m, p)
  match pyIn "requestContext" pe with
  | .error e => .error (e, none)
  | .ok hrc =>
    if hrc then
      match pyGetItem pe "requestContext" with
      | .error e => .error (e, none)
      | .ok rc =>
        match pyIn "http" rc with
        | .error e => .error (e, none)
        | .ok hh =>
          if hh then
            match pyGetItem rc "http" with
            | .error e => .error (e, none)
            | .ok hobj =>
              match pyGetItem hobj "method" with
              | .error e => .error (e, none)
              | .ok m =>
                match pyGetItem hobj "path" with
                | .error e => .error (e, some m)
                | .ok p => .ok (m, p)
          else fallback
    else fallback

/-- Characters after the last slash: the value of `s.split('/')[-1]` (the
whole string when no slash occurs, empty when the string ends in one). -/
def lastSeg (s : String) : String :=
  String.mk ((s.data.reverse.takeWhile (fun c => c ≠ Char.ofNat 47)).reverse)

/-- Last path segment used as the `Path` dimension of the RequestStarted
metric: `path.split('/')[-1] if path != '/' else 'root'`; the split
raises `AttributeError` when the path is not a string. -/
def pathDim (p : Json) : Except PyErr String :=
  if p == Json.str "/" then .ok "root"
  else match p with
    | .str s => .ok (lastSeg s)
    | _ => .error (.attrError "object has no attribute split")

/-- Chained comparison `200 <= status_code < 400` with Python numeric
semantics: booleans compare as 0/1 (so the chain is false), non-numbers
raise `TypeError`. -/
def pyChainCmp (sc : Json) : Except PyErr Bool :=
  match sc with
  | .num n => .ok (decide (200 ≤ n) && decide (n < 400))
  | .bool _ => .ok false
  | _ => .error (.typeError "not supported between instances")

/-- Endpoint-keyword counters (lines 341 to 348): substring probes of the
request path, first match wins, carrying Python `in` semantics. -/
def keywordMetrics (p : Json) : Except PyErr (List Metric) := do
  if (← pyIn "/emotion" p) then pure [⟨"EmotionAnalysisRequests", "Count", []⟩]
  else if (← pyIn "/process-audio" p) then pure [⟨"EmotionAnalysisRequests", "Count", []⟩]
  else if (← pyIn "/speech" p) then pure [⟨"SpeechToTextRequests", "Count", []⟩]
  else if (← pyIn "/transcribe" p) then pure [⟨"SpeechToTextRequests", "Count", []⟩]
  else if (← pyIn "/wellness" p) then pure [⟨"WellnessRequests", "Count", []⟩]
  else if (← pyIn "/health" p) then pure [⟨"HealthCheckRequests", "Count", []⟩]
  else pure []

/-- Context telemetry (lines 351 to 357): memory limit and remaining time
samples when the context exposes those attributes. -/
def ctxMetrics (ctx : Option Ctx) : List Metric :=
  match ctx with
  | none => []
  | some c =>
    (match c.memoryLimitMb with
     | some _ => [⟨"MemoryLimit", "Megabytes", []⟩]
     | none => []) ++
    (match c.remainingMs with
     | some _ => [⟨"RemainingTime", "Milliseconds", []⟩]
     | none => [])

/-- Cache directories probed by the health check and during request
logging. -/
def healthCacheDirs : List String :=
  ["/tmp/.cache/whisper", "/tmp/.cache/huggingface/hub", "/tmp/.cache/torch"]

/-- Existence and writability map reported by the health body. -/
def cacheStatus (sys : SysState) : Json :=
  .obj (healthCacheDirs.map fun d =>
    (d, Json.obj [("exists", .bool (sys.dirs d)),
                  ("writable", .bool (sys.dirs d && sys.writable d))]))

/-- Health check `health_check`: emits the HealthCheck counter and returns
the fixed 200 payload describing process status, environment name and
cache directory status. -/
def health_check (sys : SysState) (clock : Clock) : List Metric × Json :=
  ([⟨"HealthCheck", "Count", []⟩],
   Json.obj [
    ("statusCode", .num 200),
    ("headers", .obj [
      ("Content-Type", .str "application/json"),
      ("Access-Control-Allow-Origin", .str "*")]),
    ("body", .str (dumps (Json.obj [
      ("status", .str "healthy"),
      ("timestamp", .num clock.ms),
      ("environment", .str (envGetD sys "ENVIRONMENT" "development")),
      ("version", .str "1.0.0"),
      ("cache_directories", cacheStatus sys),
      ("environment_variables", .obj [
        ("WHISPER_CACHE", .str (envGetD sys "WHISPER_CACHE" "not set")),
        ("TRANSFORMERS_CACHE", .str (envGetD sys "TRANSFORMERS_CACHE" "not set")),
        ("HF_HOME", .str (envGetD sys "HF_HOME" "not set")),
        ("TORCH_HOME", .str (envGetD sys "TORCH_HOME" "not set"))])])))])

/-- Headers of the top-level error response (lines 382 to 387). -/
def errorHeaders : Json :=
  .obj [
    ("Content-Type", .str "application/json"),
    ("Access-Control-Allow-Origin", .str "*"),
    ("Access-Control-Allow-Methods", .str "GET, POST, PUT, DELETE, OPTIONS"),
    ("Access-Control-Allow-Headers", .str "Content-Type, Authorization")]

/-- Canonical 500 response of the top-level exception handler: the body
carries the raw exception message only when the DEBUG flag is truthy and
a generic message otherwise, plus request id, error type name, and the
locally known event type. -/
def error_response (debug : Bool) (rid : String) (e : PyErr) (et : String) : Json :=
  .obj [
    ("statusCode", .num 500),
    ("headers", errorHeaders),
    ("body", .str (dumps (Json.obj [
      ("error", .str "Internal server error"),
      ("message", .str (if debug then e.msg else "An error occurred")),
      ("requestId", .str rid),
      ("errorType", .str e.typeName),
      ("eventType", .str et)])))]

/-- Outcome of the `try` block of `lambda_handler`: the response or the
exception together with the `locals()` snapshot the except block consults
(`event_type` and the stringified `http_method`), the metric samples
emitted so far, and the list of events passed to the Mangum handler. -/
structure RunOut where
  outcome : Except (PyErr × String × String) Json
  metrics : List Metric
  args : List Json

/-- Body of the `try` block of `lambda_handler` (lines 229 to 360),
parameterized by the wrapped Mangum handler `mangum` (an abstract
capability that may itself raise).  Logging statements are effect-free
and omitted; every state-changing or fallible step is kept in source
order: classify, normalize, extract method and path, emit RequestStarted,
short-circuit health paths, invoke the adapter, classify the status code,
and emit the outcome, timing, keyword and context metrics. -/
def lambda_run (mangum : Json → Except PyErr Json) (sys : SysState) (clock : Clock)
    (ctx : Option Ctx) (event : Json) : RunOut :=
  match detect_event_type event with
  | .error e => ⟨.error (e, "unknown", "UNKNOWN"), [], []⟩
  | .ok et =>
    match normalizeEvent clock et event with
    | .error e => ⟨.error (e, et, "UNKNOWN"), [], []⟩
    | .ok pe =>
      match extractMP pe with
      | .error (e, mo) =>
        ⟨.error (e, et, match mo with | some m => pyStr m | none => "UNKNOWN"), [], []⟩
      | .ok (m, p) =>
        match pathDim p with
        | .error e => ⟨.error (e, et, pyStr m), [], []⟩
        | .ok pd =>
          let rs : Metric :=
            ⟨"RequestStarted", "Count", [("Method", pyStr m), ("Path", pd), ("EventType", et)]⟩
          if p == Json.str "/health" || p == Json.str "/" then
            let hc := health_check sys clock
            ⟨.ok hc.2, rs :: hc.1, []⟩
          else
            match mangum pe with
            | .error e => ⟨.error (e, et, pyStr m), [rs], [pe]⟩
            | .ok resp =>
              match pyGet resp "statusCode" (.num 500) with
              | .error e => ⟨.error (e, et, pyStr m), [rs], [pe]⟩
              | .ok sc =>
                match pyChainCmp sc with
                | .error e => ⟨.error (e, et, pyStr m), [rs], [pe]⟩
                | .ok isS =>
                  let outcomeM : Metric :=
                    if isS then
                      ⟨"APISuccess", "Count",
                        [("Method", pyStr m), ("StatusCode", pyStr sc), ("EventType", et)]⟩
                    else
                      ⟨"APIError", "Count",
                        [("Method", pyStr m), ("StatusCode", pyStr sc), ("EventType", et)]⟩
                  let timeM : Metric :=
                    ⟨"ProcessingTime", "Milliseconds",
                      [("Method", pyStr m), ("Success", if isS then "True" else "False"),
                       ("EventType", et)]⟩
                  match keywordMetrics p with
                  | .error e => ⟨.error (e, et, pyStr m), [rs, outcomeM, timeM], [pe]⟩
                  | .ok kws =>
                    ⟨.ok resp, [rs, outcomeM, timeM] ++ kws ++ ctxMetrics ctx, [pe]⟩

/-- Request id read off the context at entry,
`context.aws_request_id if context else 'unknown'`. -/
def requestIdOf (ctx : Option Ctx) : String :=
  match ctx with
  | some c => c.awsRequestId
  | none => "unknown"

/-- Top-level handler `lambda_handler`: runs the try block and, on any
exception, emits the error metrics and returns the canonical 500
response; the result is the response together with the emitted metric
samples and the events handed to the wrapped adapter. -/
def lambda_handler (mangum : Json → Except PyErr Json) (sys : SysState) (clock : Clock)
    (ctx : Option Ctx) (event : Json) : Json × List Metric × List Json :=
  let rid := requestIdOf ctx
  let r := lambda_run mangum sys clock ctx event
  match r.outcome with
  | .ok resp => (resp, r.metrics, r.args)
  | .error (e, et, hm) =>
    (error_response (debugOf sys) rid e et,
     r.metrics ++
       [⟨"APIError", "Count", [("Method", hm), ("ErrorType", e.typeName), ("EventType", et)]⟩,
        ⟨"ErrorTime", "Milliseconds", []⟩],
     r.args)

/-- Cache directories created by the bootstrapper, in source order. -/
def cacheDirs : List String :=
  ["/tmp/.cache", "/tmp/.cache/whisper", "/tmp/.cache/huggingface",
   "/tmp/.cache/huggingface/hub", "/tmp/.cache/torch", "/tmp/.cache/transformers"]

/-- Environment redirections written by the bootstrapper, in source
(dict-insertion) order. -/
def cacheEnvPairs : List (String × String) :=
  [("WHISPER_CACHE", "/tmp/.cache/whisper"),
   ("TRANSFORMERS_CACHE", "/tmp/.cache/huggingface/hub"),
   ("HF_HOME", "/tmp/.cache/huggingface"),
   ("TORCH_HOME", "/tmp/.cache/torch"),
   ("XDG_CACHE_HOME", "/tmp/.cache"),
   ("WHISPER_MODEL_PATH", "/tmp/.cache/whisper"),
   ("HUGGINGFACE_HUB_CACHE", "/tmp/.cache/huggingface/hub"),
   ("TRANSFORMERS_OFFLINE", "0"),
   ("HF_DATASETS_CACHE", "/tmp/.cache/huggingface/datasets")]

/-- Setting all bootstrapper environment variables over a base
environment. -/
def envSetAll (env : String → Option String) : String → Option String :=
  cacheEnvPairs.foldl (fun f kv => fun k => if k = kv.1 then some kv.2 else f k) env

/-- Marking one directory as existing. -/
def insertDir (d : String) (ds : String → Bool) : String → Bool :=
  fun x => if x = d then true else ds x

/-- Directory-creation loop with `exist_ok=True`: `fsErr` is the
filesystem-fault oracle, firing only when the directory actually has to
be created; on a fault the loop stops with the directories created so
far, which is what the caller's `except` clause observes. -/
def mkCacheDirs (fsErr : String → Bool) : List String → (String → Bool) → (String → Bool) × Bool
  | [], ds => (ds, true)
  | d :: rest, ds =>
    if fsErr d && !ds d then (ds, false)
    else mkCacheDirs fsErr rest (insertDir d ds)

/-- Bootstrapper `setup_lambda_environment`: creates the cache
directories, then sets the environment redirections and reports success;
on a filesystem fault it catches, leaves the environment untouched and
reports failure without raising. -/
def setup_lambda_environment (fsErr : String → Bool) (sys : SysState) : SysState × Bool :=
  match mkCacheDirs fsErr cacheDirs sys.dirs with
  | (ds, true) => ({ sys with dirs := ds, env := envSetAll sys.env }, true)
  | (ds, false) => ({ sys with dirs := ds }, false)

/-- Number of samples with a given metric name in an emission list. -/
def countName (ms : List Metric) (n : String) : Nat :=
  (ms.filter (fun m => m.name == n)).length

/-- Key lookup on a JSON value, yielding nothing on non-mappings. -/
def jLook (e : Json) (k : String) : Option Json :=
  match e with
  | .obj kvs => kvs.lookup k
  | _ => none

/-- Presence of a field on a mapping (false on non-mappings). -/
def objHasKey (e : Json) (k : String) : Bool :=
  (jLook e k).isSome

/-- Modelled from the spec: the ordered first-match classification rules
of section 4.2, with field presence read as key membership of a mapping
(the claim speaks of fields of mappings), the top-level method field read
as `httpMethod` (the field the code's own extraction rule names first),
and the function-URL kind rendered with the code's label
`lambda_function_url`. -/
def specClassify (e : Json) : String :=
  if jLook e "version" == some (Json.str "2.0") then "api_gateway_v2"
  else if objHasKey e "requestContext" && objHasKey e "httpMethod" then "api_gateway_v1"
  else if objHasKey ((jLook e "requestContext").getD .null) "elb" then "alb"
  else if objHasKey ((jLook e "requestContext").getD .null) "http" then "lambda_function_url"
  else "direct_invocation"

/-- Event is a mapping whose `requestContext` value, when present, is
itself a mapping: the territory on which every membership probe of the
classifier tests key membership. -/
def rcOkB (e : Json) : Bool :=
  match e with
  | .obj kvs =>
    match kvs.lookup "requestContext" with
    | none => true
    | some (.obj _) => true
    | some _ => false
  | _ => false

/-- Documented method-extraction rule per kind (spec section 4.2): the
mandatory `httpMethod` for v1 events, the defaulted
`httpMethod`/`method`/`POST` chain for direct invocations. -/
def specMethod (kind : String) (e : Json) : Except PyErr Json :=
  if kind == "api_gateway_v1" then pyGetItem e "httpMethod"
  else do pyGet e "httpMethod" (← pyGet e "method" (Json.str "POST"))

/-- Documented path-extraction rule per kind (spec section 4.2). -/
def specPath (kind : String) (e : Json) : Except PyErr Json :=
  if kind == "api_gateway_v1" then pyGetItem e "path"
  else pyGet e "path" (Json.str "/api/process-audio")

/-- Normalized path of an inbound event: classification, normalization
and method/path extraction chained, yielding the path the handler's
health shortcut inspects. -/
def pathOfEvent (clock : Clock) (event : Json) : Except PyErr Json := do
  let k ← detect_event_type event
  let pe ← normalizeEvent clock k event
  match extractMP pe with
  | .error e => .error e.1
  | .ok mp => pure mp.2

/-- Fixed clock used by concrete scenarios. -/
def clock0 : Clock := ⟨0, "t"⟩

/-- Fresh process state: no directories, nothing writable, empty
environment. -/
def sys0 : SysState := ⟨fun _ => false, fun _ => false, fun _ => none⟩

/-- Wrapped application that answers every request with a plain 200. -/
def mangum200 : Json → Except PyErr Json :=
  fun _ => .ok (.obj [("statusCode", .num 200)])

theorem chHead_self_append (n r : List Char) : chHead n (n ++ r) = true := by
  induction n with
  | nil => rfl
  | cons a as ih => simp [chHead, ih]

theorem chInf_of_head {n hay : List Char} (h : chHead n hay = true) : chInf n hay = true := by
  cases hay with
  | nil => simpa [chInf] using h
  | cons b bs => simp [chInf, h]

theorem chInf_self_append (pre n post : List Char) : chInf n (pre ++ (n ++ post)) = true := by
  induction pre with
  | nil => exact chInf_of_head (chHead_self_append n post)
  | cons c cs ih => simp [chInf, ih]

/-- A string assembled as prefix, pattern and suffix contains the
pattern. -/
theorem contains_parts (s pre n post : String)
    (h : s.data = pre.data ++ (n.data ++ post.data)) : strContains s n = true := by
  simp [strContains, h, chInf_self_append]

/-- Serialization of a mapping with at least two entries, split after the
first entry. -/
theorem dumps_obj_head (k : String) (v : Json) (p : String × Json) (t : List (String × Json)) :
    dumps (.obj (⟨k, v⟩ :: p :: t)) =
      "\x7b" ++ (dq k ++ ": " ++ dumps v) ++ (", " ++ dumpsObj (p :: t) ++ "\x7d") := by
  show "\x7b" ++ dumpsObj (⟨k, v⟩ :: p :: t) ++ "\x7d" = _
  have hstep : dumpsObj (⟨k, v⟩ :: p :: t) = dq k ++ ": " ++ dumps v ++ ", " ++ dumpsObj (p :: t) := rfl
  rw [hstep]
  apply String.ext
  simp [String.data_append, List.append_assoc]

@[simp] theorem exc_bind_ok {ε α β : Type} (a : α) (f : α → Except ε β) :
    (Except.ok a : Except ε α) >>= f = f a := rfl

@[simp] theorem exc_bind_error {ε α β : Type} (e : ε) (f : α → Except ε β) :
    (Except.error e : Except ε α) >>= f = .error e := rfl

@[simp] theorem exc_pure_eq {ε α : Type} (a : α) : (pure a : Except ε α) = .ok a := rfl

theorem opt_beq_some {α : Type} [BEq α] (a b : α) :
    ((some a == some b) : Bool) = (a == b) := rfl

theorem exc_bind_def {ε α β : Type} (x : Except ε α) (f : α → Except ε β) :
    x >>= f = match x with | .ok a => f a | .error e => .error e := by
  cases x <;> rfl

/-- Serialization of a mapping with at least two entries contains the
rendering of its first entry. -/
theorem contains_head_entry (k : String) (v : Json) (p : String × Json)
    (t : List (String × Json)) (n : String)
    (hn : n.data = (dq k ++ ": " ++ dumps v).data) :
    strContains (dumps (.obj (⟨k, v⟩ :: p :: t))) n = true := by
  rw [dumps_obj_head]
  apply contains_parts _ "\x7b" _ (", " ++ dumpsObj (p :: t) ++ "\x7d")
  simp [String.data_append, List.append_assoc, hn]

/-- Body of the health response names the healthy status up front. -/
theorem health_body_contains (sys : SysState) (clock : Clock) :
    ∃ body, pyGetItem (health_check sys clock).2 "body" = .ok (.str body) ∧
      strContains body "\"status\": \"healthy\"" = true := by
  refine ⟨_, rfl, ?_⟩
  exact contains_head_entry "status" (.str "healthy") _ _ _ (by decide)

/-- C1 (amended): on every mapping event whose `requestContext` value, when
present, is itself a mapping, `detect_event_type` returns exactly the kind
prescribed by the spec's ordered first-match rules (with the top-level
method field read as `httpMethod`).  Outside that territory the Python
membership probes take over: `in` against a string or list `requestContext`
tests substrings or elements, and against other values raises `TypeError`,
so classification can differ from the rules or raise. -/
theorem detect_matches_spec_rules (e : Json) (h : rcOkB e = true) :
    detect_event_type e = .ok (specClassify e) := by
  cases e with
  | obj kvs =>
    simp only [rcOkB] at h
    cases hrc : kvs.lookup "requestContext" with
    | none =>
      cases hv : kvs.lookup "version" with
      | none =>
        simp only [specClassify, jLook, objHasKey, hrc, hv]
        simp [detect_event_type, pyIn, pyGetItem, hrc, hv]
      | some v =>
        cases hveq : v == Json.str "2.0" <;>
        · simp only [specClassify, jLook, objHasKey, hrc, hv, opt_beq_some, hveq]
          simp [detect_event_type, pyIn, pyGetItem, hrc, hv, hveq]
    | some rc =>
      rw [hrc] at h
      cases rc with
      | obj rkvs =>
        have final : (if (List.lookup "elb" rkvs).isSome = true
              then (Except.ok "alb" : Except PyErr String)
            else if (List.lookup "http" rkvs).isSome = true then Except.ok "lambda_function_url"
            else Except.ok "direct_invocation") =
            Except.ok (if (List.lookup "elb" rkvs).isSome = true then "alb"
            else if (List.lookup "http" rkvs).isSome = true then "lambda_function_url"
            else "direct_invocation") := by
          cases hel : (List.lookup "elb" rkvs).isSome <;>
            cases hht : (List.lookup "http" rkvs).isSome <;> simp [hel, hht]
        cases hv : kvs.lookup "version" with
        | none =>
          cases hm : kvs.lookup "httpMethod" with
          | none =>
            simp only [specClassify, jLook, objHasKey, hrc, hv, hm]
            simp [detect_event_type, pyIn, pyGetItem, hrc, hv, hm]
            exact final
          | some mv =>
            simp only [specClassify, jLook, objHasKey, hrc, hv, hm]
            simp [detect_event_type, pyIn, pyGetItem, hrc, hv, hm]
        | some v =>
          cases hveq : v == Json.str "2.0" with
          | true =>
            simp only [specClassify, jLook, objHasKey, hrc, hv, opt_beq_some, hveq]
            simp [detect_event_type, pyIn, pyGetItem, hrc, hv, hveq]
          | false =>
            cases hm : kvs.lookup "httpMethod" with
            | none =>
              simp only [specClassify, jLook, objHasKey, hrc, hv, hm, opt_beq_some, hveq]
              simp [detect_event_type, pyIn, pyGetItem, hrc, hv, hveq, hm]
              exact final
            | some mv =>
              simp only [specClassify, jLook, objHasKey, hrc, hv, hm, opt_beq_some, hveq]
              simp [detect_event_type, pyIn, pyGetItem, hrc, hv, hveq, hm]
      | null => simp at h
      | bool b => simp at h
      | num n => simp at h
      | str s => simp at h
      | arr xs => simp at h
  | null => simp [rcOkB] at h
  | bool b => simp [rcOkB] at h
  | num n => simp [rcOkB] at h
  | str s => simp [rcOkB] at h
  | arr xs => simp [rcOkB] at h

/-- C1 (witness): a concrete mapping event with a mapping
`requestContext` on which the amended rule equivalence applies. -/
theorem detect_matches_spec_rules_witness :
    rcOkB (.obj [("version", .str "2.0"), ("requestContext", .obj [("elb", .null)])]) = true ∧
    detect_event_type
        (.obj [("version", .str "2.0"), ("requestContext", .obj [("elb", .null)])]) =
      .ok (specClassify
        (.obj [("version", .str "2.0"), ("requestContext", .obj [("elb", .null)])])) :=
  ⟨rfl, detect_matches_spec_rules _ rfl⟩

/-- C1 (counterexample): the mapping event whose `requestContext` is the
string `"elb"` has no `requestContext.elb` field, so the claim's rules
give `direct_invocation`, yet the code's substring membership probe makes
`detect_event_type` return `alb`. -/
theorem detect_membership_counterexample :
    detect_event_type (.obj [("requestContext", .str "elb")]) = .ok "alb" ∧
    specClassify (.obj [("requestContext", .str "elb")]) = "direct_invocation" :=
  ⟨rfl, rfl⟩

/-- C2 (amended): for the two kinds the normalizer actually rewrites,
direct invocation and API Gateway v1, every successful normalization
yields a canonical event whose `routeKey` is exactly the method and path
of the documented extraction rule joined by a space.  The remaining kinds
(v2, ALB, Function URL) pass through unchanged, so their `routeKey` is
whatever the inbound event carried, possibly nothing. -/
theorem normalize_route_key_for_rewritten_kinds (clock : Clock) (kind : String) (e j : Json)
    (hk : kind = "direct_invocation" ∨ kind = "api_gateway_v1")
    (hn : normalizeEvent clock kind e = .ok j) :
    ∃ m p, specMethod kind e = .ok m ∧ specPath kind e = .ok p ∧
      pyGetItem j "routeKey" = .ok (.str (pyStr m ++ " " ++ pyStr p)) := by
  rcases hk with h | h <;> subst h
  · rw [show normalizeEvent clock "direct_invocation" e = create_api_gateway_v2_event clock e
      from rfl] at hn
    cases e with
    | obj kvs =>
      unfold create_api_gateway_v2_event at hn
      simp only [pyGet, pyGetItem, pyIn, exc_bind_ok, exc_bind_error, exc_pure_eq] at hn
      cases hb : List.lookup "body" kvs with
      | none =>
        rw [hb] at hn
        simp only [Option.isSome] at hn
        simp at hn
        subst hn
        exact ⟨_, _, rfl, rfl, rfl⟩
      | some b =>
        rw [hb] at hn
        cases b <;>
        · simp at hn
          subst hn
          exact ⟨_, _, rfl, rfl, rfl⟩
    | null => simp [create_api_gateway_v2_event, pyGet] at hn
    | bool b => simp [create_api_gateway_v2_event, pyGet] at hn
    | num n => simp [create_api_gateway_v2_event, pyGet] at hn
    | str s => simp [create_api_gateway_v2_event, pyGet] at hn
    | arr xs => simp [create_api_gateway_v2_event, pyGet] at hn
  · rw [show normalizeEvent clock "api_gateway_v1" e = convert_v1_event clock e from rfl] at hn
    unfold convert_v1_event at hn
    simp only [exc_bind_def] at hn
    cases hm : pyGetItem e "httpMethod" with
    | error e1 => rw [hm] at hn; simp at hn
    | ok m =>
      rw [hm] at hn
      cases hp : pyGetItem e "path" with
      | error e1 => rw [hp] at hn; simp at hn
      | ok p =>
        rw [hp] at hn
        refine ⟨m, p, by simpa [specMethod] using hm, by simpa [specPath] using hp, ?_⟩
        repeat' split at hn
        all_goals simp_all
        all_goals (subst hn; rfl)

/-- C2 (witness): a concrete direct-invocation event on which the amended
route-key property applies. -/
theorem normalize_route_key_witness :
    ∃ j, normalizeEvent clock0 "direct_invocation" (.obj [("path", .str "/x")]) = .ok j ∧
      ∃ m p, specMethod "direct_invocation" (.obj [("path", .str "/x")]) = .ok m ∧
        specPath "direct_invocation" (.obj [("path", .str "/x")]) = .ok p ∧
        pyGetItem j "routeKey" = .ok (.str (pyStr m ++ " " ++ pyStr p)) := by
  refine ⟨_, rfl, ?_⟩
  exact normalize_route_key_for_rewritten_kinds clock0 "direct_invocation" _ _ (Or.inl rfl) rfl

/-- C2 (counterexample): an ALB event passes through normalization
unchanged, so the canonical request has no `routeKey` field at all, while
the claim asserts a method-and-path route key for every one of the five
kinds. -/
theorem alb_passthrough_no_route_key :
    detect_event_type (.obj [("requestContext", .obj [("elb", .null)])]) = .ok "alb" ∧
    normalizeEvent clock0 "alb" (.obj [("requestContext", .obj [("elb", .null)])]) =
      .ok (.obj [("requestContext", .obj [("elb", .null)])]) ∧
    pyGetItem (.obj [("requestContext", .obj [("elb", .null)])]) "routeKey" =
      .error (.keyError "routeKey") :=
  ⟨rfl, rfl, rfl⟩

/-- C3: whenever the try block of the handler ends in an exception, the
handler returns (rather than raises) the canonical 500 result: fixed
permissive headers and a JSON body carrying the request id, the
exception's type name, and the raw exception message exactly when the
DEBUG environment flag is truthy, a generic message otherwise. -/
theorem handler_error_policy (mangum : Json → Except PyErr Json) (sys : SysState)
    (clock : Clock) (ctx : Option Ctx) (event : Json) (e : PyErr) (et hm rid : String)
    (h : (lambda_run mangum sys clock ctx event).outcome = .error (e, et, hm))
    (hr : requestIdOf ctx = rid) :
    (lambda_handler mangum sys clock ctx event).1 =
      .obj [("statusCode", .num 500),
            ("headers", .obj [
              ("Content-Type", .str "application/json"),
              ("Access-Control-Allow-Origin", .str "*"),
              ("Access-Control-Allow-Methods", .str "GET, POST, PUT, DELETE, OPTIONS"),
              ("Access-Control-Allow-Headers", .str "Content-Type, Authorization")]),
            ("body", .str (dumps (.obj [
              ("error", .str "Internal server error"),
              ("message", .str (if debugOf sys then e.msg else "An error occurred")),
              ("requestId", .str rid),
              ("errorType", .str e.typeName),
              ("eventType", .str et)])))] := by
  simp only [lambda_handler, h, hr, error_response, errorHeaders]

/-- C3 (witness): a v1-classified event without a `path` field makes
normalization raise `KeyError`, and the handler answers with the
canonical 500 body. -/
theorem handler_error_policy_witness :
    (lambda_run mangum200 sys0 clock0 none
        (.obj [("requestContext", .obj []), ("httpMethod", .str "GET")])).outcome =
      .error (.keyError "path", "api_gateway_v1", "UNKNOWN") ∧
    requestIdOf none = "unknown" ∧
    (lambda_handler mangum200 sys0 clock0 none
        (.obj [("requestContext", .obj []), ("httpMethod", .str "GET")])).1 =
      .obj [("statusCode", .num 500),
            ("headers", .obj [
              ("Content-Type", .str "application/json"),
              ("Access-Control-Allow-Origin", .str "*"),
              ("Access-Control-Allow-Methods", .str "GET, POST, PUT, DELETE, OPTIONS"),
              ("Access-Control-Allow-Headers", .str "Content-Type, Authorization")]),
            ("body", .str (dumps (.obj [
              ("error", .str "Internal server error"),
              ("message", .str "An error occurred"),
              ("requestId", .str "unknown"),
              ("errorType", .str "KeyError"),
              ("eventType", .str "api_gateway_v1")])))] :=
  ⟨rfl, rfl,
   handler_error_policy mangum200 sys0 clock0 none _
     (.keyError "path") "api_gateway_v1" "UNKNOWN" "unknown" rfl rfl⟩

/-- C4: any inbound event whose normalized path is `/health` never reaches
the wrapped Mangum adapter (no argument is ever passed to it, and the
handler's result does not depend on the adapter at all), and the handler
answers 200 with a body declaring the healthy status. -/
theorem health_shortcut (mangum1 mangum2 : Json → Except PyErr Json) (sys : SysState)
    (clock : Clock) (ctx : Option Ctx) (event : Json)
    (h : pathOfEvent clock event = .ok (.str "/health")) :
    (lambda_run mangum1 sys clock ctx event).args = [] ∧
    lambda_handler mangum1 sys clock ctx event = lambda_handler mangum2 sys clock ctx event ∧
    pyGetItem (lambda_handler mangum1 sys clock ctx event).1 "statusCode" = .ok (.num 200) ∧
    ∃ body, pyGetItem (lambda_handler mangum1 sys clock ctx event).1 "body" = .ok (.str body) ∧
      strContains body "\"status\": \"healthy\"" = true := by
  unfold pathOfEvent at h
  simp only [exc_bind_def] at h
  cases hd : detect_event_type event with
  | error e1 => simp only [hd] at h; exact Except.noConfusion h
  | ok k =>
    simp only [hd] at h
    cases hn : normalizeEvent clock k event with
    | error e1 => simp only [hn] at h; exact Except.noConfusion h
    | ok pe =>
      simp only [hn] at h
      cases hex : extractMP pe with
      | error em => simp only [hex] at h; exact Except.noConfusion h
      | ok mp =>
        simp only [hex] at h
        obtain ⟨m, p⟩ := mp
        simp at h
        subst h
        have hpd : pathDim (Json.str "/health") = .ok "health" := rfl
        have hcond : (Json.str "/health" == Json.str "/health" ||
            Json.str "/health" == Json.str "/") = true := rfl
        have hrun : ∀ mg : Json → Except PyErr Json, lambda_run mg sys clock ctx event =
            ⟨.ok (health_check sys clock).2,
             ⟨"RequestStarted", "Count",
               [("Method", pyStr m), ("Path", "health"), ("EventType", k)]⟩ ::
               (health_check sys clock).1, []⟩ := by
          intro mg
          simp [lambda_run, hd, hn, hex, hpd, hcond]
        refine ⟨by rw [hrun], by simp [lambda_handler, hrun mangum1, hrun mangum2], ?_, ?_⟩
        · simp [lambda_handler, hrun mangum1, health_check, pyGetItem]
        · obtain ⟨body, hb1, hb2⟩ := health_body_contains sys clock
          refine ⟨body, ?_, hb2⟩
          simpa [lambda_handler, hrun mangum1] using hb1

/-- C4 (witness): concrete health request, checked against two adapters
that disagree on every input. -/
theorem health_shortcut_witness :
    pathOfEvent clock0 (.obj [("path", .str "/health")]) = .ok (.str "/health") ∧
    ((lambda_run mangum200 sys0 clock0 none (.obj [("path", .str "/health")])).args = [] ∧
     lambda_handler mangum200 sys0 clock0 none (.obj [("path", .str "/health")]) =
       lambda_handler (fun _ => .error (.exn "RuntimeError" "boom")) sys0 clock0 none
         (.obj [("path", .str "/health")]) ∧
     pyGetItem (lambda_handler mangum200 sys0 clock0 none
         (.obj [("path", .str "/health")])).1 "statusCode" = .ok (.num 200) ∧
     ∃ body, pyGetItem (lambda_handler mangum200 sys0 clock0 none
         (.obj [("path", .str "/health")])).1 "body" = .ok (.str body) ∧
       strContains body "\"status\": \"healthy\"" = true) :=
  ⟨rfl, health_shortcut mangum200 (fun _ => .error (.exn "RuntimeError" "boom"))
    sys0 clock0 none _ rfl⟩

/-- Keyword counters never reuse the outcome or timing metric names. -/
theorem keyword_count (s : String) :
    ∃ l, keywordMetrics (.str s) = .ok l ∧ countName l "APISuccess" = 0 ∧
      countName l "APIError" = 0 ∧ countName l "ProcessingTime" = 0 := by
  unfold keywordMetrics
  simp only [pyIn, exc_bind_ok, exc_bind_def]
  split_ifs <;> exact ⟨_, rfl, by decide, by decide, by decide⟩

/-- Context telemetry never reuses the outcome or timing metric names. -/
theorem ctx_count (ctx : Option Ctx) :
    countName (ctxMetrics ctx) "APISuccess" = 0 ∧
    countName (ctxMetrics ctx) "APIError" = 0 ∧
    countName (ctxMetrics ctx) "ProcessingTime" = 0 := by
  cases ctx with
  | none => exact ⟨rfl, rfl, rfl⟩
  | some c =>
    obtain ⟨rid, ml, rm⟩ := c
    cases ml <;> cases rm <;> exact ⟨rfl, rfl, rfl⟩

/-- C5 (amended): on every invocation that reaches the adapter and gets a
result back with an integer status code, the handler emits exactly one
APISuccess sample when the code lies in [200, 400), exactly one APIError
sample otherwise, and exactly one ProcessingTime sample.  The health
shortcut and the exception path emit no ProcessingTime sample at all (the
exception path emits an ErrorTime sample instead), so the count is not one
per invocation regardless of outcome. -/
theorem metrics_on_adapter_path (mangum : Json → Except PyErr Json) (sys : SysState)
    (clock : Clock) (ctx : Option Ctx) (event : Json) (k hs : String) (pe m p resp : Json)
    (n : Int)
    (hd : detect_event_type event = .ok k)
    (hn : normalizeEvent clock k event = .ok pe)
    (hex : extractMP pe = .ok (m, p))
    (hpd : pathDim p = .ok hs)
    (hnh : (p == Json.str "/health" || p == Json.str "/") = false)
    (hm : mangum pe = .ok resp)
    (hsc : pyGet resp "statusCode" (.num 500) = .ok (.num n)) :
    countName (lambda_run mangum sys clock ctx event).metrics "APISuccess" =
      (if 200 ≤ n ∧ n < 400 then 1 else 0) ∧
    countName (lambda_run mangum sys clock ctx event).metrics "APIError" =
      (if 200 ≤ n ∧ n < 400 then 0 else 1) ∧
    countName (lambda_run mangum sys clock ctx event).metrics "ProcessingTime" = 1 := by
  have hps : ∃ s, p = Json.str s := by
    have hnh2 := Bool.or_eq_false_iff.mp hnh
    unfold pathDim at hpd
    rw [hnh2.2] at hpd
    cases p with
    | str s => exact ⟨s, rfl⟩
    | null => exact Except.noConfusion hpd
    | bool b => exact Except.noConfusion hpd
    | num n2 => exact Except.noConfusion hpd
    | arr xs => exact Except.noConfusion hpd
    | obj kvs => exact Except.noConfusion hpd
  obtain ⟨s, rfl⟩ := hps
  obtain ⟨kws, hkw, hk1, hk2, hk3⟩ := keyword_count s
  obtain ⟨hc1, hc2, hc3⟩ := ctx_count ctx
  have hcc : pyChainCmp (.num n) = .ok (decide (200 ≤ n) && decide (n < 400)) := rfl
  have hrun : lambda_run mangum sys clock ctx event =
      ⟨.ok resp,
       [⟨"RequestStarted", "Count", [("Method", pyStr m), ("Path", hs), ("EventType", k)]⟩,
        (if (decide (200 ≤ n) && decide (n < 400)) then
          ⟨"APISuccess", "Count",
            [("Method", pyStr m), ("StatusCode", pyStr (.num n)), ("EventType", k)]⟩
         else
          ⟨"APIError", "Count",
            [("Method", pyStr m), ("StatusCode", pyStr (.num n)), ("EventType", k)]⟩),
        ⟨"ProcessingTime", "Milliseconds",
          [("Method", pyStr m),
           ("Success", if (decide (200 ≤ n) && decide (n < 400)) then "True" else "False"),
           ("EventType", k)]⟩] ++ kws ++ ctxMetrics ctx, [pe]⟩ := by
    simp [lambda_run, hd, hn, hex, hpd, hnh, hm, hsc, hcc, hkw]
  rw [hrun]
  unfold countName at hk1 hk2 hk3 hc1 hc2 hc3 ⊢
  by_cases hok : 200 ≤ n ∧ n < 400
  · have hb : (decide (200 ≤ n) && decide (n < 400)) = true := by
      simp [hok.1, hok.2]
    simp [List.filter_append, hb, hok, hk1, hk2, hk3, hc1, hc2, hc3]
  · have hb : (decide (200 ≤ n) && decide (n < 400)) = false := by
      rcases Decidable.not_and_iff_or_not.mp hok with h | h <;> simp [h]
    simp [List.filter_append, hb, hok, hk1, hk2, hk3, hc1, hc2, hc3]

/-- C5 (witness): a direct invocation of `/foo` answered 200 by the
adapter emits one APISuccess, no APIError and one ProcessingTime. -/
theorem metrics_on_adapter_path_witness :
    detect_event_type (.obj [("path", .str "/foo")]) = .ok "direct_invocation" ∧
    countName (lambda_run mangum200 sys0 clock0 none
      (.obj [("path", .str "/foo")])).metrics "APISuccess" = 1 ∧
    countName (lambda_run mangum200 sys0 clock0 none
      (.obj [("path", .str "/foo")])).metrics "APIError" = 0 ∧
    countName (lambda_run mangum200 sys0 clock0 none
      (.obj [("path", .str "/foo")])).metrics "ProcessingTime" = 1 := by
  obtain ⟨h1, h2, h3⟩ := metrics_on_adapter_path mangum200 sys0 clock0 none
    (.obj [("path", .str "/foo")]) "direct_invocation" "foo" _ (.str "POST") (.str "/foo")
    _ 200 rfl rfl rfl rfl rfl rfl rfl
  exact ⟨rfl, h1, h2, h3⟩

/-- C5 (counterexample): the health invocation emits zero ProcessingTime
samples, refuting one processing-time metric per invocation regardless of
outcome. -/
theorem health_no_processing_time_counterexample :
    pathOfEvent clock0 (.obj [("path", .str "/health")]) = .ok (.str "/health") ∧
    countName (lambda_handler mangum200 sys0 clock0 none
      (.obj [("path", .str "/health")])).2.1 "ProcessingTime" = 0 :=
  ⟨rfl, rfl⟩

/-- C6 (amended): normalization is the identity (and in particular never
raises) for every kind other than the two rewritten ones, and always
succeeds for direct invocations of mapping events; for the
`api_gateway_v1` kind, however, it raises `KeyError` when the mandatory
top-level `path` field is absent. -/
theorem normalize_total_except_v1 (clock : Clock) (kind : String) (e : Json)
    (kvs : List (String × Json)) :
    (kind ≠ "direct_invocation" → kind ≠ "api_gateway_v1" →
      normalizeEvent clock kind e = .ok e) ∧
    ∃ j, normalizeEvent clock "direct_invocation" (.obj kvs) = .ok j := by
  constructor
  · intro h1 h2
    simp [normalizeEvent, h1, h2]
  · simp only [normalizeEvent, if_pos]
    unfold create_api_gateway_v2_event
    simp only [pyGet, pyIn, pyGetItem, exc_bind_ok, exc_bind_error, exc_pure_eq]
    cases hb : List.lookup "body" kvs with
    | none => simp [hb]
    | some b => cases b <;> simp [hb]

/-- C6 (witness): normalization leaves an ALB-kind event untouched and
succeeds on a mapping direct invocation. -/
theorem normalize_total_except_v1_witness :
    normalizeEvent clock0 "alb" (.str "x") = .ok (.str "x") ∧
    ∃ j, normalizeEvent clock0 "direct_invocation" (.obj [("a", .null)]) = .ok j :=
  ⟨(normalize_total_except_v1 clock0 "alb" (.str "x") [("a", .null)]).1
      (by decide) (by decide),
   (normalize_total_except_v1 clock0 "alb" (.str "x") [("a", .null)]).2⟩

/-- C6 (counterexample): a recognized `api_gateway_v1` event without a
top-level `path` makes normalization raise `KeyError`, refuting that
normalization never raises for recognized kinds. -/
theorem v1_normalization_keyerror :
    detect_event_type (.obj [("requestContext", .obj []), ("httpMethod", .str "GET")]) =
      .ok "api_gateway_v1" ∧
    normalizeEvent clock0 "api_gateway_v1"
        (.obj [("requestContext", .obj []), ("httpMethod", .str "GET")]) =
      .error (.keyError "path") :=
  ⟨rfl, rfl⟩

/-- Every event handed to the wrapped adapter during a run is the
normalized form of the inbound event. -/
theorem lambda_run_args_sub (mangum : Json → Except PyErr Json) (sys : SysState)
    (clock : Clock) (ctx : Option Ctx) (e a : Json)
    (ha : a ∈ (lambda_run mangum sys clock ctx e).args) :
    ∃ et pe, detect_event_type e = .ok et ∧ normalizeEvent clock et e = .ok pe ∧ a = pe := by
  unfold lambda_run at ha
  repeat' split at ha
  all_goals simp_all

/-- C10: for events classified as ALB or Lambda Function URL the
normalization step is the identity, and any event handed to the wrapped
Mangum handler is the inbound event itself. -/
theorem alb_function_url_passthrough (mangum : Json → Except PyErr Json) (sys : SysState)
    (clock : Clock) (ctx : Option Ctx) (e : Json) (kind : String)
    (hk : kind = "alb" ∨ kind = "lambda_function_url")
    (hd : detect_event_type e = .ok kind) :
    normalizeEvent clock kind e = .ok e ∧
    ∀ a ∈ (lambda_run mangum sys clock ctx e).args, a = e := by
  have hne : normalizeEvent clock kind e = .ok e := by
    rcases hk with h | h <;> subst h <;> rfl
  refine ⟨hne, fun a ha => ?_⟩
  obtain ⟨et, pe, hd2, hn2, hape⟩ := lambda_run_args_sub mangum sys clock ctx e a ha
  rw [hd] at hd2
  injection hd2 with hkind
  subst hkind
  rw [hne] at hn2
  injection hn2 with hpe
  exact hape.trans hpe.symm

/-- C10 (witness): a concrete ALB event flows through unchanged. -/
theorem alb_function_url_passthrough_witness :
    detect_event_type (.obj [("requestContext", .obj [("elb", .null)])]) = .ok "alb" ∧
    (normalizeEvent clock0 "alb" (.obj [("requestContext", .obj [("elb", .null)])]) =
        .ok (.obj [("requestContext", .obj [("elb", .null)])]) ∧
      ∀ a ∈ (lambda_run mangum200 sys0 clock0 none
          (.obj [("requestContext", .obj [("elb", .null)])])).args,
        a = .obj [("requestContext", .obj [("elb", .null)])]) :=
  ⟨rfl, alb_function_url_passthrough mangum200 sys0 clock0 none _ "alb" (Or.inl rfl) rfl⟩

/-- Directory creation only ever adds directories. -/
theorem mkCacheDirs_mono (fsErr : String → Bool) (l : List String) (ds : String → Bool)
    (x : String) (hx : ds x = true) : (mkCacheDirs fsErr l ds).1 x = true := by
  induction l generalizing ds with
  | nil => exact hx
  | cons d rest ih =>
    unfold mkCacheDirs
    split
    · exact hx
    · apply ih
      by_cases hxd : x = d <;> simp [insertDir, hxd, hx]

/-- The directory-creation loop is a fixpoint on its own output. -/
theorem mkCacheDirs_fix (fsErr : String → Bool) (l : List String) (ds : String → Bool) :
    mkCacheDirs fsErr l (mkCacheDirs fsErr l ds).1 = mkCacheDirs fsErr l ds := by
  induction l generalizing ds with
  | nil => rfl
  | cons d rest ih =>
    by_cases hc : (fsErr d && !ds d) = true
    · simp [mkCacheDirs, hc]
    · rw [show mkCacheDirs fsErr (d :: rest) ds =
        mkCacheDirs fsErr rest (insertDir d ds) by simp [mkCacheDirs, hc]]
      have hd1 : (mkCacheDirs fsErr rest (insertDir d ds)).1 d = true :=
        mkCacheDirs_mono fsErr rest _ d (by simp [insertDir])
      rw [show mkCacheDirs fsErr (d :: rest) (mkCacheDirs fsErr rest (insertDir d ds)).1 =
        mkCacheDirs fsErr rest (insertDir d (mkCacheDirs fsErr rest (insertDir d ds)).1) by
          simp [mkCacheDirs, hd1]]
      have harg : insertDir d (mkCacheDirs fsErr rest (insertDir d ds)).1 =
          (mkCacheDirs fsErr rest (insertDir d ds)).1 := by
        funext x
        by_cases hxd : x = d
        · subst hxd; simp [insertDir, hd1]
        · simp [insertDir, hxd]
      rw [harg]
      exact ih _

/-- The loop reports failure exactly when some directory in the list is
both faulted and missing at entry. -/
theorem mkCacheDirs_false_iff (fsErr : String → Bool) (l : List String) (ds : String → Bool) :
    (mkCacheDirs fsErr l ds).2 = false ↔ ∃ d ∈ l, fsErr d = true ∧ ds d = false := by
  induction l generalizing ds with
  | nil => simp [mkCacheDirs]
  | cons d rest ih =>
    by_cases hc : (fsErr d && !ds d) = true
    · rw [Bool.and_eq_true, Bool.not_eq_true'] at hc
      simp only [mkCacheDirs, hc.1, hc.2]
      simp [hc.1, hc.2]
    · rw [show mkCacheDirs fsErr (d :: rest) ds =
        mkCacheDirs fsErr rest (insertDir d ds) by simp [mkCacheDirs, hc]]
      rw [ih]
      constructor
      · rintro ⟨x, hxm, hxe, hxf⟩
        by_cases hxd : x = d
        · rw [hxd] at hxf; simp [insertDir] at hxf
        · exact ⟨x, List.mem_cons_of_mem _ hxm, hxe, by simpa [insertDir, hxd] using hxf⟩
      · rintro ⟨x, hxm, hxe, hxf⟩
        rcases List.mem_cons.mp hxm with hxd | hxm2
        · subst hxd
          exfalso
          apply hc
          simp [hxe, hxf]
        · refine ⟨x, hxm2, hxe, ?_⟩
          by_cases hxd : x = d
          · subst hxd
            exfalso
            apply hc
            simp [hxe, hxf]
          · simpa [insertDir, hxd] using hxf

/-- Re-writing the environment redirections is absorbed. -/
theorem envSetAll_idem (env : String → Option String) :
    envSetAll (envSetAll env) = envSetAll env := by
  funext k
  simp only [envSetAll, cacheEnvPairs, List.foldl]
  split_ifs <;> rfl

/-- C8: the bootstrapper is idempotent on process state (a second run in
sequence reproduces the exact directory and environment state of the
first, whatever filesystem faults persist) and, being a total function of
the model, never raises; it reports failure exactly when some cache
directory both faults and was missing, leaving the environment variables
untouched in that case. -/
theorem setup_idempotent_and_fault_reporting (fsErr : String → Bool) (sys : SysState) :
    (setup_lambda_environment fsErr (setup_lambda_environment fsErr sys).1).1 =
      (setup_lambda_environment fsErr sys).1 ∧
    ((setup_lambda_environment fsErr sys).2 = false ↔
      ∃ d ∈ cacheDirs, fsErr d = true ∧ sys.dirs d = false) := by
  constructor
  · unfold setup_lambda_environment
    have hfix := mkCacheDirs_fix fsErr cacheDirs sys.dirs
    rcases hmk : mkCacheDirs fsErr cacheDirs sys.dirs with ⟨ds, flag⟩
    rw [hmk] at hfix
    cases flag
    · simp only [hmk]
      simp [hfix]
    · simp only [hmk]
      simp [hfix, envSetAll_idem]
  · have hiff := mkCacheDirs_false_iff fsErr cacheDirs sys.dirs
    unfold setup_lambda_environment
    rcases hmk : mkCacheDirs fsErr cacheDirs sys.dirs with ⟨ds, flag⟩
    rw [hmk] at hiff
    cases flag <;> simp_all

/-- C8 (witness): the idempotence and fault-reporting statement applied
to a fault-free filesystem and a fresh process state. -/
theorem setup_idempotent_witness :
    (setup_lambda_environment (fun _ => false)
        (setup_lambda_environment (fun _ => false) sys0).1).1 =
      (setup_lambda_environment (fun _ => false) sys0).1 ∧
    ((setup_lambda_environment (fun _ => false) sys0).2 = false ↔
      ∃ d ∈ cacheDirs, (fun _ => false : String → Bool) d = true ∧ sys0.dirs d = false) :=
  setup_idempotent_and_fault_reporting (fun _ => false) sys0

/-- C9 (amended): the health response's headers carry exactly
Content-Type and the permissive allow-origin header, while the error
response's headers additionally carry the allowed-methods and
allowed-headers CORS headers; Content-Type is present in both. -/
theorem response_headers_content_type_cors (sys : SysState) (clock : Clock) (debug : Bool)
    (rid et : String) (e : PyErr) :
    pyGetItem (health_check sys clock).2 "headers" =
      .ok (.obj [("Content-Type", .str "application/json"),
                 ("Access-Control-Allow-Origin", .str "*")]) ∧
    pyGetItem (error_response debug rid e et) "headers" =
      .ok (.obj [("Content-Type", .str "application/json"),
                 ("Access-Control-Allow-Origin", .str "*"),
                 ("Access-Control-Allow-Methods", .str "GET, POST, PUT, DELETE, OPTIONS"),
                 ("Access-Control-Allow-Headers", .str "Content-Type, Authorization")]) :=
  ⟨rfl, rfl⟩

/-- C9 (counterexample): the health response's headers do not include the
allowed-methods or allowed-headers CORS headers, refuting that the health
path carries them. -/
theorem health_headers_no_cors_methods :
    (pyGetItem (health_check sys0 clock0).2 "headers" >>= fun h =>
      pyIn "Access-Control-Allow-Methods" h) = .ok false ∧
    (pyGetItem (health_check sys0 clock0).2 "headers" >>= fun h =>
      pyIn "Access-Control-Allow-Headers" h) = .ok false :=
  ⟨rfl, rfl⟩

/-- C7: the direct-invocation event with a structured body and no path
normalizes to route key `POST /api/process-audio`, the body serialized to
a string, and `isBase64Encoded` false. -/
theorem direct_invocation_scenario :
    detect_event_type (.obj [("body", .obj [("text", .str "hello")])]) =
      .ok "direct_invocation" ∧
    (create_api_gateway_v2_event clock0 (.obj [("body", .obj [("text", .str "hello")])])
        >>= fun j => pyGetItem j "routeKey") = .ok (.str "POST /api/process-audio") ∧
    (create_api_gateway_v2_event clock0 (.obj [("body", .obj [("text", .str "hello")])])
        >>= fun j => pyGetItem j "body") = .ok (.str "\x7b\"text\": \"hello\"\x7d") ∧
    (create_api_gateway_v2_event clock0 (.obj [("body", .obj [("text", .str "hello")])])
        >>= fun j => pyGetItem j "isBase64Encoded") = .ok (.bool false) :=
  ⟨rfl, rfl, rfl, rfl⟩

end Sen
